import Mathlib

/-!
Verification of the `h3-sse` helper library (src/src/index.ts): a Server-Sent-Events
formatter and a stream-controller state machine (`EventStream`).

The TypeScript source is shallowly embedded:

* `EventStreamMessage` mirrors the exported interface; the JS `number` field
  `retry` is modelled as a rational (`ℚ`), for which `Number.isInteger` is the
  predicate `den = 1`.
* JS truthiness of an optional string (`undefined` and `""` are falsy) is the
  predicate `truthyStr`.
* The stateful `EventStream` class is embedded as a record of its mutable
  fields (`_writerIsClosed`, `_paused`, `_unsentData`, `_disposed`, `_handled`,
  the host's `event._handled` and `event.node.res.closed` flags) together with
  instrumentation recording the observable effects: the list of successful
  channel writes, the number of `writer.close()` attempts, and whether
  `res.end()` was invoked.  Each `async` method becomes a total state
  transformer; fallible channel operations (`writer.write`, `writer.close`)
  take a `Bool` oracle saying whether the underlying operation succeeds, and a
  failed operation leaves the state unchanged except as the `catch` blocks of
  the source dictate.
-/

namespace H3SSE

/-- JS truthiness of a `string | undefined` value: `undefined` and the empty
string are falsy, every other string is truthy.  Used to embed the source's
`if (message.id)`, `!this._unsentData` and `this._unsentData?.length` tests. -/
def truthyStr : Option String → Bool
  | none => false
  | some s => s != ""

/-- Embeds the exported `EventStreamMessage` interface (src/src/index.ts:233-238):
optional `id`/`event` strings, an optional JS-number `retry` (modelled as `ℚ`),
and a required `data` string. -/
structure EventStreamMessage where
  id : Option String := none
  event : Option String := none
  retry : Option ℚ := none
  data : String
deriving DecidableEq

/-- Embeds `Number.isInteger` on a JS number modelled as a rational: true
exactly when the (reduced) denominator is 1. -/
def isIntegerNum (q : ℚ) : Bool := q.den == 1

/-- Embeds `formatEventStreamMessage` (src/src/index.ts:240-253): appends, in
fixed order, an `id:` line when `message.id` is truthy, an `event:` line when
`message.event` is truthy, a `retry:` line when `message.retry` is a number and
`Number.isInteger(message.retry)` holds, and finally the mandatory
`data:` line followed by a blank line. -/
def formatEventStreamMessage (message : EventStreamMessage) : String :=
  (if truthyStr message.id then "id: " ++ message.id.getD "" ++ "\n" else "")
    ++ (if truthyStr message.event then "event: " ++ message.event.getD "" ++ "\n" else "")
    ++ (match message.retry with
        | some r => if isIntegerNum r then "retry: " ++ toString r.num ++ "\n" else ""
        | none => "")
    ++ ("data: " ++ message.data ++ "\n\n")

/-- Embeds `formatEventStreamMessages` (src/src/index.ts:255-263): starts from
the empty string and appends `formatEventStreamMessage msg` for each message in
order. -/
def formatEventStreamMessages (messages : List EventStreamMessage) : String :=
  messages.foldl (fun result msg => result ++ formatEventStreamMessage msg) ""

/-- Spec-as-written formatter used to compare against the code: it emits each
optional line exactly when the corresponding field is *present* (and, for
`retry`, an integer number), which is what the specification claims.  The code
instead uses JS truthiness for `id` and `event`. -/
def formatMessageSpecPresent (message : EventStreamMessage) : String :=
  (match message.id with
    | some i => "id: " ++ i ++ "\n"
    | none => "")
    ++ (match message.event with
        | some e => "event: " ++ e ++ "\n"
        | none => "")
    ++ (match message.retry with
        | some r => if isIntegerNum r then "retry: " ++ toString r.num ++ "\n" else ""
        | none => "")
    ++ ("data: " ++ message.data ++ "\n\n")

/-- Spec-as-amended formatter: emits each optional line exactly when the
corresponding field is present and truthy (non-empty for the `id` and `event`
strings; for `retry`, an integer number), written independently of the
accumulator style of the source. -/
def formatMessageSpecTruthy (message : EventStreamMessage) : String :=
  (match message.id with
    | some i => if i = "" then "" else "id: " ++ i ++ "\n"
    | none => "")
    ++ (match message.event with
        | some e => if e = "" then "" else "event: " ++ e ++ "\n"
        | none => "")
    ++ (match message.retry with
        | some r => if r.den = 1 then "retry: " ++ toString r.num ++ "\n" else ""
        | none => "")
    ++ ("data: " ++ message.data ++ "\n\n")

/-- A nonempty string stays nonempty after appending on the right. -/
theorem append_ne_empty_left (s t : String) (h : s ≠ "") : s ++ t ≠ "" := by
  intro hc
  have hl := congrArg String.length hc
  rw [String.length_append] at hl
  have hs : s.length ≠ 0 := by
    intro h0
    apply h
    cases s with
    | mk data =>
      cases data with
      | nil => rfl
      | cons a l => simp [String.length] at h0
  have h0 : ("" : String).length = 0 := rfl
  rw [h0] at hl
  omega

/-- The output of the formatter always contains the mandatory `data:` line, so
it is never the empty string. -/
theorem formatEventStreamMessage_ne_empty (m : EventStreamMessage) :
    formatEventStreamMessage m ≠ "" := by
  intro hc
  have hl := congrArg String.length hc
  unfold formatEventStreamMessage at hl
  rw [String.length_append, String.length_append, String.length_append,
    String.length_append, String.length_append] at hl
  have h6 : ("data: " : String).length = 6 := rfl
  have h2 : ("\n\n" : String).length = 2 := rfl
  have h0 : ("" : String).length = 0 := rfl
  rw [h6, h2, h0] at hl
  omega

/-- Folding the accumulator loop of `formatEventStreamMessages` from an
arbitrary initial string prepends that string to the result. -/
theorem formatMessages_foldl (l : List EventStreamMessage) (init : String) :
    l.foldl (fun result msg => result ++ formatEventStreamMessage msg) init
      = init ++ formatEventStreamMessages l := by
  induction l generalizing init with
  | nil => simp [formatEventStreamMessages, String.append_empty]
  | cons m rest ih =>
    rw [List.foldl_cons, ih]
    have hm : formatEventStreamMessages (m :: rest)
        = formatEventStreamMessage m ++ formatEventStreamMessages rest := by
      show (m :: rest).foldl (fun result msg => result ++ formatEventStreamMessage msg) ""
        = formatEventStreamMessage m ++ formatEventStreamMessages rest
      rw [List.foldl_cons, ih, String.empty_append]
    rw [hm, String.append_assoc]

/-- Unfolding lemma: formatting a nonempty list formats the head and then the
tail. -/
theorem formatMessages_cons (m : EventStreamMessage) (rest : List EventStreamMessage) :
    formatEventStreamMessages (m :: rest)
      = formatEventStreamMessage m ++ formatEventStreamMessages rest := by
  show (m :: rest).foldl (fun result msg => result ++ formatEventStreamMessage msg) ""
    = formatEventStreamMessage m ++ formatEventStreamMessages rest
  rw [List.foldl_cons, formatMessages_foldl, String.empty_append]

/-- The result of formatting a nonempty list of messages is a nonempty string. -/
theorem formatEventStreamMessages_ne_empty (msgs : List EventStreamMessage)
    (h : msgs ≠ []) : formatEventStreamMessages msgs ≠ "" := by
  cases msgs with
  | nil => exact absurd rfl h
  | cons m rest =>
    rw [formatMessages_cons]
    exact append_ne_empty_left _ _ (formatEventStreamMessage_ne_empty m)

/-- C7: `formatEventStreamMessages` is the concatenation homomorphism of
`formatEventStreamMessage`: the empty list yields the empty string, every list
yields the in-order concatenation of the formatted elements with no added
separator (stated both as the `String.join` of the mapped list and by the
nil/cons characterization), and in particular a two-element list yields the
two formatted payloads appended. -/
theorem C7_formatMessages_concat_hom :
    formatEventStreamMessages [] = ""
      ∧ (∀ l : List EventStreamMessage,
          formatEventStreamMessages l = String.join (l.map formatEventStreamMessage))
      ∧ (∀ (m : EventStreamMessage) (l : List EventStreamMessage),
          formatEventStreamMessages (m :: l)
            = formatEventStreamMessage m ++ formatEventStreamMessages l)
      ∧ (∀ m1 m2 : EventStreamMessage,
          formatEventStreamMessages [m1, m2]
            = formatEventStreamMessage m1 ++ formatEventStreamMessage m2) := by
  have hfold : ∀ (ss : List String) (init : String),
      ss.foldl (fun r s => r ++ s) init = init ++ String.join ss := by
    intro ss
    induction ss with
    | nil => intro init; simp [String.join, String.append_empty]
    | cons s rest ih =>
      intro init
      rw [List.foldl_cons, ih]
      have hc : String.join (s :: rest) = s ++ String.join rest := by
        show (s :: rest).foldl (fun r t => r ++ t) "" = s ++ String.join rest
        rw [List.foldl_cons, ih, String.empty_append]
      rw [hc, String.append_assoc]
  have hjoin : ∀ l : List EventStreamMessage,
      formatEventStreamMessages l = String.join (l.map formatEventStreamMessage) := by
    intro l
    induction l with
    | nil => rfl
    | cons m rest ih =>
      rw [formatMessages_cons, ih, List.map_cons]
      have hc : String.join (formatEventStreamMessage m :: rest.map formatEventStreamMessage)
          = formatEventStreamMessage m ++ String.join (rest.map formatEventStreamMessage) := by
        show (formatEventStreamMessage m :: rest.map formatEventStreamMessage).foldl
            (fun r t => r ++ t) "" = _
        rw [List.foldl_cons, hfold, String.empty_append]
      rw [hc]
  refine ⟨rfl, hjoin, formatMessages_cons, ?_⟩
  intro m1 m2
  rw [formatMessages_cons, formatMessages_cons]
  show formatEventStreamMessage m1 ++ (formatEventStreamMessage m2 ++ formatEventStreamMessages []) = _
  rw [show formatEventStreamMessages [] = "" from rfl, String.append_empty]

/-- The JS number 1.5 modelled as a rational, used for the spec's
`retry: 1.5` example. -/
def threeHalves : ℚ := { num := 3, den := 2, den_nz := by decide, reduced := by decide }

/-- C2 (counterexample): the claim says an optional line is present exactly
when the field is present and well-typed, but for the present, well-typed field
`id = ""` the code emits no `id:` line (JS truthiness), so the code output
differs from the spec-as-written formatter at this input. -/
theorem C2_counterexample :
    formatEventStreamMessage { id := some "", data := "x" } = "data: x\n\n"
      ∧ formatMessageSpecPresent { id := some "", data := "x" } = "id: \ndata: x\n\n"
      ∧ formatEventStreamMessage { id := some "", data := "x" }
          ≠ formatMessageSpecPresent { id := some "", data := "x" } := by
  refine ⟨rfl, rfl, ?_⟩
  decide

/-- C2 (amended): `formatEventStreamMessage` builds, in fixed order, an `id:`
line, an `event:` line, a `retry:` line, then the `data:` line followed by one
blank line; each optional line is present exactly when the corresponding field
is present and truthy (non-empty for the `id`/`event` strings; for `retry`,
an integer number: 1.5 is omitted and 200 is emitted), and the `data:` line is
always emitted exactly once. -/
theorem C2_format_fixed_grammar :
    (∀ m : EventStreamMessage, formatEventStreamMessage m = formatMessageSpecTruthy m)
      ∧ formatEventStreamMessage { retry := some threeHalves, data := "x" } = "data: x\n\n"
      ∧ formatEventStreamMessage { retry := some 200, data := "x" }
          = "retry: 200\ndata: x\n\n" := by
  refine ⟨?_, by decide, by decide⟩
  intro m
  obtain ⟨oid, oev, ore, da⟩ := m
  unfold formatEventStreamMessage formatMessageSpecTruthy
  cases oid with
  | none =>
    cases oev with
    | none =>
      cases ore with
      | none => rfl
      | some r =>
        by_cases hr : r.den = 1 <;> simp [isIntegerNum, truthyStr, hr]
    | some e =>
      by_cases he : e = "" <;>
        cases ore with
        | none => simp [truthyStr, he]
        | some r =>
          by_cases hr : r.den = 1 <;> simp [isIntegerNum, truthyStr, he, hr]
  | some i =>
    by_cases hi : i = "" <;>
      cases oev with
      | none =>
        cases ore with
        | none => simp [truthyStr, hi]
        | some r =>
          by_cases hr : r.den = 1 <;> simp [isIntegerNum, truthyStr, hi, hr]
      | some e =>
        by_cases he : e = "" <;>
          cases ore with
          | none => simp [truthyStr, hi, he]
          | some r =>
            by_cases hr : r.den = 1 <;> simp [isIntegerNum, truthyStr, hi, he, hr]

/-- The mutable state of an `EventStream` instance (src/src/index.ts:47-213)
together with instrumentation of its observable effects.  `writerIsClosed`,
`paused`, `unsentData`, `disposed` and `handled` are the class fields
`_writerIsClosed`, `_paused`, `_unsentData`, `_disposed` and `_handled`;
`h3Handled` is the host's `event._handled` flag and `resClosed` the host's
`event.node.res.closed` flag.  `writes` records the payloads of the successful
`writer.write` calls in order, `writerCloseAttempts` counts the `writer.close()`
calls, and `resEnded` records whether `res.end()` was invoked. -/
structure StreamState where
  writerIsClosed : Bool
  paused : Bool
  unsentData : Option String
  disposed : Bool
  handled : Bool
  h3Handled : Bool
  resClosed : Bool
  writes : List String
  writerCloseAttempts : Nat
  resEnded : Bool
deriving DecidableEq

/-- The state of a freshly constructed `EventStream` (constructor,
src/src/index.ts:64-74): writer open, not paused, no unsent data, not disposed,
not handed off, connection open, and no effects recorded yet. -/
def initialState : StreamState :=
  { writerIsClosed := false, paused := false, unsentData := none, disposed := false,
    handled := false, h3Handled := false, resClosed := false, writes := [],
    writerCloseAttempts := 0, resEnded := false }

/-- Embeds the private method `_writeToStream` (src/src/index.ts:140-150): drop
if the writer is closed; otherwise attempt the channel write (`writeOk` says
whether it succeeds).  On success the payload is written and `_unsentData` is
set to the empty string; on failure the error is only logged and the state is
unchanged. -/
def writeToStream (writeOk : Bool) (payload : String) (s : StreamState) : StreamState :=
  if s.writerIsClosed then s
  else if writeOk then { s with writes := s.writes ++ [payload], unsentData := some "" }
  else s

/-- Embeds the private method `sendEvent` (src/src/index.ts:108-121): drop if
the writer is closed; if paused and `_unsentData` is falsy, initialize the
buffer with the formatted message; if paused otherwise, append to the buffer;
if not paused, write the formatted message to the stream. -/
def sendEvent (writeOk : Bool) (message : EventStreamMessage) (s : StreamState) : StreamState :=
  if s.writerIsClosed then s
  else if s.paused && !truthyStr s.unsentData then
    { s with unsentData := some (formatEventStreamMessage message) }
  else if s.paused then
    { s with unsentData := some (s.unsentData.getD "" ++ formatEventStreamMessage message) }
  else writeToStream writeOk (formatEventStreamMessage message) s

/-- Embeds the private method `sendEvents` (src/src/index.ts:123-138): same as
`sendEvent` but the payload is the batch formatting of the whole list. -/
def sendEvents (writeOk : Bool) (messages : List EventStreamMessage) (s : StreamState) :
    StreamState :=
  if s.writerIsClosed then s
  else
    let payload := formatEventStreamMessages messages
    if s.paused && !truthyStr s.unsentData then { s with unsentData := some payload }
    else if s.paused then { s with unsentData := some (s.unsentData.getD "" ++ payload) }
    else writeToStream writeOk payload s

/-- The four runtime shapes accepted by the `push` overloads
(src/src/index.ts:79-84). -/
inductive PushInput where
  | str (s : String)
  | msg (m : EventStreamMessage)
  | strList (l : List String)
  | msgList (l : List EventStreamMessage)
deriving DecidableEq

/-- Embeds `push` (src/src/index.ts:83-106): a bare string becomes a
single-message send of `{data}`; an empty array returns immediately; an array
whose elements are strings is mapped to `{data}` messages and batch-sent; an
array of messages is batch-sent; a single message is single-sent. -/
def push (writeOk : Bool) (message : PushInput) (s : StreamState) : StreamState :=
  match message with
  | .str x => sendEvent writeOk { data := x } s
  | .strList l =>
    if l.length = 0 then s
    else sendEvents writeOk (l.map fun item => { data := item }) s
  | .msgList l =>
    if l.length = 0 then s
    else sendEvents writeOk l s
  | .msg m => sendEvent writeOk m s

/-- Embeds `pause` (src/src/index.ts:152-154): set the paused flag. -/
def pause (s : StreamState) : StreamState := { s with paused := true }

/-- Embeds `flush` (src/src/index.ts:165-172): no-op if the writer is closed;
if `_unsentData` has truthy length, write it to the stream. -/
def flush (writeOk : Bool) (s : StreamState) : StreamState :=
  if s.writerIsClosed then s
  else if truthyStr s.unsentData then writeToStream writeOk (s.unsentData.getD "") s
  else s

/-- Embeds `resume` (src/src/index.ts:160-163): clear the paused flag, then
flush. -/
def resume (writeOk : Bool) (s : StreamState) : StreamState :=
  flush writeOk { s with paused := false }

/-- Embeds `close` (src/src/index.ts:177-197): return immediately if disposed;
otherwise, if the writer is not yet closed, attempt `writer.close()` (`closeOk`
says whether it succeeds — on success the writer's `closed` promise fulfills
and `_writerIsClosed` becomes true, on failure the error is only logged);
then, if `event._handled` and `this._handled` hold and the response is not
already closed, call `res.end()`; finally mark disposed unconditionally. -/
def close (closeOk : Bool) (s : StreamState) : StreamState :=
  if s.disposed then s
  else
    let s1 :=
      if !s.writerIsClosed then
        { s with writerCloseAttempts := s.writerCloseAttempts + 1, writerIsClosed := closeOk }
      else s
    let s2 :=
      if s1.h3Handled && s1.handled && !s1.resClosed then { s1 with resEnded := true }
      else s1
    { s2 with disposed := true }

/-- Embeds the effect of `send` / `sendEventStream` on the embedded state
(src/src/index.ts:210-212 and 222-228): both `event._handled` and
`eventStream._handled` are set to true (setting the response headers and the
200 status, and streaming the readable end, act only on the external host). -/
def send (s : StreamState) : StreamState := { s with h3Handled := true, handled := true }

/-- One public operation on the controller, with the success oracle of any
channel operation it performs. -/
inductive Op where
  | push (writeOk : Bool) (i : PushInput)
  | pause
  | resume (writeOk : Bool)
  | flush (writeOk : Bool)
  | close (closeOk : Bool)
  | send
deriving DecidableEq

/-- Interpret one operation on a state. -/
def step (s : StreamState) (o : Op) : StreamState :=
  match o with
  | .push ok i => push ok i s
  | .pause => pause s
  | .resume ok => resume ok s
  | .flush ok => flush ok s
  | .close ok => close ok s
  | .send => send s

/-- Run a sequence of operations from the freshly constructed state. -/
def run (ops : List Op) : StreamState := ops.foldl step initialState

/-- Pushing a list of messages one `push` call at a time, in order. -/
def pushMsgs (writeOk : Bool) (msgs : List EventStreamMessage) (s : StreamState) :
    StreamState :=
  msgs.foldl (fun acc m => push writeOk (.msg m) acc) s

/-- While paused with a truthy (nonempty) pending buffer `u` and an open
writer, pushing any list of messages only appends their formatted payloads to
the buffer, in order, and changes nothing else. -/
theorem pushMsgs_paused_accum (writeOk : Bool) (msgs : List EventStreamMessage)
    (u : String) (s : StreamState)
    (hw : s.writerIsClosed = false) (hp : s.paused = true)
    (hu : s.unsentData = some u) (hne : u ≠ "") :
    pushMsgs writeOk msgs s
      = { s with unsentData := some (u ++ formatEventStreamMessages msgs) } := by
  induction msgs generalizing s u with
  | nil =>
    show s = _
    rw [show formatEventStreamMessages [] = "" from rfl, String.append_empty, ← hu]
  | cons m rest ih =>
    have hsend : push writeOk (.msg m) s
        = { s with unsentData := some (u ++ formatEventStreamMessage m) } := by
      show sendEvent writeOk m s = _
      unfold sendEvent
      rw [hw, hp, hu]
      simp [truthyStr, hne]
    have hstep : pushMsgs writeOk (m :: rest) s
        = pushMsgs writeOk rest (push writeOk (.msg m) s) := rfl
    rw [hstep, hsend,
      ih (u ++ formatEventStreamMessage m)
        { s with unsentData := some (u ++ formatEventStreamMessage m) } hw hp rfl
        (append_ne_empty_left u _ hne),
      formatMessages_cons, ← String.append_assoc]

/-- C1 (amended): starting from any open (writer not closed) controller with
no truthy pending buffer, pushing N ≥ 1 messages while paused and calling `resume`
produces exactly one successful write, whose content is the concatenation of
the N formatted payloads in push order; afterwards the pending buffer holds
the cleared (empty) string and a further `flush` is a no-op, so the buffered
content is never retransmitted. -/
theorem C1_pause_resume_roundtrip (s : StreamState) (msgs : List EventStreamMessage)
    (hw : s.writerIsClosed = false) (hu : truthyStr s.unsentData = false)
    (hne : msgs ≠ []) :
    (resume true (pushMsgs true msgs (pause s))).writes
        = s.writes ++ [formatEventStreamMessages msgs]
      ∧ (resume true (pushMsgs true msgs (pause s))).unsentData = some ""
      ∧ (∀ writeOk, flush writeOk (resume true (pushMsgs true msgs (pause s)))
          = resume true (pushMsgs true msgs (pause s))) := by
  cases msgs with
  | nil => exact absurd rfl hne
  | cons m rest =>
    have h1 : push true (.msg m) (pause s)
        = { s with paused := true,
                   unsentData := some (formatEventStreamMessage m) } := by
      show sendEvent true m (pause s) = _
      unfold sendEvent pause
      simp [hw, hu]
    have h2 : pushMsgs true (m :: rest) (pause s)
        = { s with paused := true,
                   unsentData := some (formatEventStreamMessages (m :: rest)) } := by
      have hstep : pushMsgs true (m :: rest) (pause s)
          = pushMsgs true rest (push true (.msg m) (pause s)) := rfl
      rw [hstep, h1,
        pushMsgs_paused_accum true rest (formatEventStreamMessage m)
          { s with paused := true, unsentData := some (formatEventStreamMessage m) }
          hw rfl rfl (formatEventStreamMessage_ne_empty m),
        formatMessages_cons]
    have hP : formatEventStreamMessages (m :: rest) ≠ "" :=
      formatEventStreamMessages_ne_empty _ (by simp)
    have h3 : resume true (pushMsgs true (m :: rest) (pause s))
        = { s with paused := false, unsentData := some "",
                   writes := s.writes ++ [formatEventStreamMessages (m :: rest)] } := by
      rw [h2]
      unfold resume flush writeToStream
      simp [hw, truthyStr, hP]
    rw [h3]
    refine ⟨rfl, rfl, ?_⟩
    intro writeOk
    unfold flush
    simp [hw, truthyStr]

/-- C1 (counterexample): the claim quantifies over every open controller, but
on an open controller that already holds pending unflushed data (here "x",
as left behind by an earlier failed flush) the single write produced by the
round trip is the pending data followed by the formatted payloads, not the
concatenation of the pushed payloads alone; and for N = 0 pushed messages the
round trip produces no write at all rather than exactly one. -/
theorem C1_counterexample :
    (resume true (pushMsgs true [{ data := "a" }]
          (pause { initialState with unsentData := some "x" }))).writes
        ≠ ({ initialState with unsentData := some "x" } : StreamState).writes
            ++ [formatEventStreamMessages [{ data := "a" }]]
      ∧ (resume true (pushMsgs true [] (pause initialState))).writes
          = initialState.writes := by
  refine ⟨?_, rfl⟩
  decide

/-- C1 witness: the round trip at the freshly constructed controller with two
concrete messages. -/
theorem C1_witness :
    (resume true (pushMsgs true [{ data := "a" }, { data := "b" }]
        (pause initialState))).writes
        = initialState.writes
            ++ [formatEventStreamMessages [{ data := "a" }, { data := "b" }]]
      ∧ (resume true (pushMsgs true [{ data := "a" }, { data := "b" }]
          (pause initialState))).unsentData = some ""
      ∧ (∀ writeOk, flush writeOk (resume true (pushMsgs true
            [{ data := "a" }, { data := "b" }] (pause initialState)))
          = resume true (pushMsgs true [{ data := "a" }, { data := "b" }]
              (pause initialState))) :=
  C1_pause_resume_roundtrip initialState [{ data := "a" }, { data := "b" }]
    rfl rfl (by simp)

/-- C4: `close` is idempotent and the writer is released at most once: a call
on a disposed controller is the identity; every `close` call leaves the
controller disposed; a single call performs exactly one `writer.close()`
attempt when the controller was neither disposed nor its writer closed (and
none otherwise), whether or not that attempt succeeds; and a second `close`
call after any first one changes nothing. -/
theorem C4_close_idempotent :
    (∀ (closeOk : Bool) (s : StreamState), s.disposed = true → close closeOk s = s)
      ∧ (∀ (closeOk : Bool) (s : StreamState), (close closeOk s).disposed = true)
      ∧ (∀ (closeOk : Bool) (s : StreamState),
          (close closeOk s).writerCloseAttempts
            = s.writerCloseAttempts + (if s.disposed || s.writerIsClosed then 0 else 1))
      ∧ (∀ (ok1 ok2 : Bool) (s : StreamState),
          close ok2 (close ok1 s) = close ok1 s) := by
  have hnoop : ∀ (closeOk : Bool) (s : StreamState), s.disposed = true →
      close closeOk s = s := by
    intro ok s h
    unfold close
    simp [h]
  have hdisposed : ∀ (closeOk : Bool) (s : StreamState),
      (close closeOk s).disposed = true := by
    intro ok s
    unfold close
    split
    · assumption
    · split <;> rfl
  have hattempts : ∀ (closeOk : Bool) (s : StreamState),
      (close closeOk s).writerCloseAttempts
        = s.writerCloseAttempts + (if s.disposed || s.writerIsClosed then 0 else 1) := by
    intro ok s
    simp only [close]
    split
    · next hd => simp [hd]
    · next hd => split <;> split <;> simp_all
  exact ⟨hnoop, hdisposed, hattempts,
    fun ok1 ok2 s => hnoop ok2 _ (hdisposed ok1 s)⟩

/-- C4 witness: a second `close` after a failed first close of the fresh
controller is a no-op, its disposed hypothesis discharged by the theorem
itself. -/
theorem C4_witness :
    close true (close false initialState) = close false initialState :=
  C4_close_idempotent.1 true _ (C4_close_idempotent.2.1 false initialState)

/-- No operation other than `send` changes the handed-off flags, and can set
`resEnded` only when the controller was already handed off or already ended. -/
theorem step_preserves_handoff (s : StreamState) (o : Op) (hs : o ≠ Op.send) :
    (step s o).handled = s.handled ∧ (step s o).h3Handled = s.h3Handled
      ∧ ((step s o).resEnded = true → s.resEnded = true ∨ s.handled = true) := by
  have hwrite : ∀ (ok : Bool) (p : String) (t : StreamState),
      (writeToStream ok p t).handled = t.handled
        ∧ (writeToStream ok p t).h3Handled = t.h3Handled
        ∧ (writeToStream ok p t).resEnded = t.resEnded := by
    intro ok p t
    unfold writeToStream
    split
    · exact ⟨rfl, rfl, rfl⟩
    · split <;> exact ⟨rfl, rfl, rfl⟩
  have hsendEvent : ∀ (ok : Bool) (m : EventStreamMessage) (t : StreamState),
      (sendEvent ok m t).handled = t.handled
        ∧ (sendEvent ok m t).h3Handled = t.h3Handled
        ∧ (sendEvent ok m t).resEnded = t.resEnded := by
    intro ok m t
    unfold sendEvent
    split
    · exact ⟨rfl, rfl, rfl⟩
    · split
      · exact ⟨rfl, rfl, rfl⟩
      · split
        · exact ⟨rfl, rfl, rfl⟩
        · exact hwrite ok _ t
  have hsendEvents : ∀ (ok : Bool) (l : List EventStreamMessage) (t : StreamState),
      (sendEvents ok l t).handled = t.handled
        ∧ (sendEvents ok l t).h3Handled = t.h3Handled
        ∧ (sendEvents ok l t).resEnded = t.resEnded := by
    intro ok l t
    unfold sendEvents
    split
    · exact ⟨rfl, rfl, rfl⟩
    · split
      · exact ⟨rfl, rfl, rfl⟩
      · split
        · exact ⟨rfl, rfl, rfl⟩
        · exact hwrite ok _ t
  have hflush : ∀ (ok : Bool) (t : StreamState),
      (flush ok t).handled = t.handled
        ∧ (flush ok t).h3Handled = t.h3Handled
        ∧ (flush ok t).resEnded = t.resEnded := by
    intro ok t
    unfold flush
    split
    · exact ⟨rfl, rfl, rfl⟩
    · split
      · exact hwrite ok _ t
      · exact ⟨rfl, rfl, rfl⟩
  have hclose : ∀ (ok : Bool) (t : StreamState),
      (close ok t).handled = t.handled ∧ (close ok t).h3Handled = t.h3Handled
        ∧ ((close ok t).resEnded = true → t.resEnded = true ∨ t.handled = true) := by
    intro ok t
    simp only [close]
    split
    · exact ⟨rfl, rfl, fun h => Or.inl h⟩
    · split <;> split <;> refine ⟨rfl, rfl, fun hre => ?_⟩ <;> simp_all
  cases o with
  | push ok i =>
    cases i with
    | str x => exact ⟨(hsendEvent ok _ s).1, (hsendEvent ok _ s).2.1,
        fun h => Or.inl (((hsendEvent ok _ s).2.2).symm.trans h)⟩
    | msg m => exact ⟨(hsendEvent ok _ s).1, (hsendEvent ok _ s).2.1,
        fun h => Or.inl (((hsendEvent ok _ s).2.2).symm.trans h)⟩
    | strList l =>
      simp only [step, push]
      split
      · exact ⟨rfl, rfl, fun h => Or.inl h⟩
      · exact ⟨(hsendEvents ok _ s).1, (hsendEvents ok _ s).2.1,
          fun h => Or.inl (((hsendEvents ok _ s).2.2).symm.trans h)⟩
    | msgList l =>
      simp only [step, push]
      split
      · exact ⟨rfl, rfl, fun h => Or.inl h⟩
      · exact ⟨(hsendEvents ok _ s).1, (hsendEvents ok _ s).2.1,
          fun h => Or.inl (((hsendEvents ok _ s).2.2).symm.trans h)⟩
  | pause => exact ⟨rfl, rfl, fun h => Or.inl h⟩
  | resume ok =>
    have h := hflush ok { s with paused := false }
    exact ⟨h.1, h.2.1, fun hh => Or.inl ((h.2.2).symm.trans hh)⟩
  | flush ok => exact ⟨(hflush ok _).1, (hflush ok _).2.1,
      fun h => Or.inl (((hflush ok _).2.2).symm.trans h)⟩
  | close ok => exact hclose ok s
  | send => exact absurd rfl hs

/-- In any operation sequence from the fresh controller that never calls
`send`, the controller is never marked handed off and `res.end()` is never
invoked. -/
theorem foldl_noSend_invariant (ops : List Op) (s : StreamState)
    (h : ∀ o ∈ ops, o ≠ Op.send) (hh : s.handled = false) (hr : s.resEnded = false) :
    (ops.foldl step s).handled = false ∧ (ops.foldl step s).resEnded = false := by
  induction ops generalizing s with
  | nil => exact ⟨hh, hr⟩
  | cons o rest ih =>
    have ho : o ≠ Op.send := h o (List.mem_cons_self o rest)
    have hstep := step_preserves_handoff s o ho
    refine ih (step s o) (fun o2 m => h o2 (List.mem_cons_of_mem o m)) ?_ ?_
    · rw [hstep.1, hh]
    · cases hres : (step s o).resEnded
      · rfl
      · rcases hstep.2.2 hres with h1 | h2
        · rw [hr] at h1; exact h1.symm
        · rw [hh] at h2; exact h2.symm

/-- C3: on a not-yet-disposed controller on which `res.end()` has not yet been
invoked, `close` ends the transport connection exactly when the host handle is
marked handed off, the controller is marked handed off, and the connection is
not already closed; and in any history from construction in which `send` is
never called, the transport connection is never ended. -/
theorem C3_close_ends_transport_iff (s : StreamState) (closeOk : Bool)
    (h1 : s.disposed = false) (h2 : s.resEnded = false) :
    ((close closeOk s).resEnded = (s.h3Handled && s.handled && !s.resClosed))
      ∧ (∀ ops : List Op, (∀ o ∈ ops, o ≠ Op.send) → (run ops).resEnded = false) := by
  constructor
  · unfold close
    simp only [h1, Bool.false_eq_true, if_false]
    split <;> split <;> simp_all
  · intro ops hops
    exact (foldl_noSend_invariant ops initialState hops rfl rfl).2

/-- C3 witness: after `send` on the fresh controller, `close` ends the
transport connection (all three conditions hold there). -/
theorem C3_witness :
    (close true (send initialState)).resEnded
      = ((send initialState).h3Handled && (send initialState).handled
          && !(send initialState).resClosed) :=
  (C3_close_ends_transport_iff (send initialState) true rfl rfl).1

/-- A `push` of any shape on a state whose writer-closed flag is set is a
silent no-op: the guard at the top of the send paths returns immediately. -/
theorem push_closedWriter_noop (writeOk : Bool) (i : PushInput) (s : StreamState)
    (h : s.writerIsClosed = true) : push writeOk i s = s := by
  cases i <;> simp [push, sendEvent, sendEvents, h]

/-- A `push` whose channel write fails never changes the list of successful
writes. -/
theorem push_writeFail_writes (i : PushInput) (s : StreamState) :
    (push false i s).writes = s.writes := by
  cases i <;> simp only [push, sendEvent, sendEvents, writeToStream]
    <;> (repeat' split) <;> simp_all

/-- C5: after `close` completes on a not-yet-disposed controller, a subsequent
`push` of any input shape is a no-op.  When the writer close succeeded the
state is entirely unchanged; when it failed (so the writer is errored and
every later channel write fails) the successful-write log is unchanged.  All
operations are total functions of the state, so none can raise. -/
theorem C5_push_after_close (s : StreamState) (i : PushInput)
    (h : s.disposed = false) :
    (∀ writeOk, push writeOk i (close true s) = close true s)
      ∧ (push false i (close false s)).writes = (close false s).writes := by
  constructor
  · intro writeOk
    have hclosed : (close true s).writerIsClosed = true := by
      simp only [close]
      split
      · simp_all
      · split <;> split <;> simp_all
    exact push_closedWriter_noop writeOk i _ hclosed
  · exact push_writeFail_writes i _

/-- C5 witness: pushing a string after closing the fresh controller changes
nothing. -/
theorem C5_witness :
    (push true (.str "late") (close true initialState) = close true initialState)
      ∧ (push false (.str "late") (close false initialState)).writes
          = (close false initialState).writes :=
  match C5_push_after_close initialState (.str "late") rfl with
  | ⟨a, b⟩ => ⟨a true, b⟩

/-- C6: `push` normalizes its four accepted input shapes equivalently: a bare
string behaves exactly like the singleton `data` message, a list of strings
behaves exactly like the corresponding list of `data` messages, and pushing an
empty list of either kind is a no-op. -/
theorem C6_push_normalization :
    (∀ (writeOk : Bool) (x : String) (s : StreamState),
        push writeOk (.str x) s = push writeOk (.msg { data := x }) s)
      ∧ (∀ (writeOk : Bool) (l : List String) (s : StreamState),
          push writeOk (.strList l) s
            = push writeOk (.msgList (l.map fun x => { data := x })) s)
      ∧ (∀ (writeOk : Bool) (s : StreamState),
          push writeOk (.strList []) s = s ∧ push writeOk (.msgList []) s = s) := by
  refine ⟨fun writeOk x s => rfl, ?_, fun writeOk s => ⟨rfl, rfl⟩⟩
  intro writeOk l s
  simp only [push, List.length_map]

/-- C9: on an open writer, a failed channel write during `flush` leaves the
pending buffer (and the write log) unchanged, so the same buffered content is
still available and is transmitted by a later successful `flush`; by contrast
a failed direct (unpaused) write changes neither the pending buffer nor the
write log. -/
theorem C9_flush_failure_preserves_buffer (s : StreamState)
    (h : s.writerIsClosed = false) :
    ((flush false s).unsentData = s.unsentData ∧ (flush false s).writes = s.writes)
      ∧ (truthyStr s.unsentData = true →
          (flush true (flush false s)).writes = s.writes ++ [s.unsentData.getD ""]
            ∧ (flush true (flush false s)).unsentData = some "")
      ∧ (∀ m : EventStreamMessage, s.paused = false →
          (sendEvent false m s).unsentData = s.unsentData
            ∧ (sendEvent false m s).writes = s.writes) := by
  have hnoop : flush false s = s := by
    simp only [flush, writeToStream]
    (repeat' split) <;> simp_all
  refine ⟨by rw [hnoop]; exact ⟨rfl, rfl⟩, ?_, ?_⟩
  · intro ht
    rw [hnoop]
    simp [flush, writeToStream, h, ht]
  · intro m hp
    simp [sendEvent, writeToStream, h, hp]

/-- A controller state with a nonempty pending buffer and an open, unpaused
writer, as arises after a pause/push/resume cycle whose write failed. -/
def pendingState : StreamState := { initialState with unsentData := some "abc" }

/-- C9 witness: the failed-then-successful flush sequence on a concrete state
with pending buffer "abc". -/
theorem C9_witness :
    ((flush false pendingState).unsentData = pendingState.unsentData
        ∧ (flush false pendingState).writes = pendingState.writes)
      ∧ ((flush true (flush false pendingState)).writes
            = pendingState.writes ++ [pendingState.unsentData.getD ""]
          ∧ (flush true (flush false pendingState)).unsentData = some "")
      ∧ ((sendEvent false { data := "m" } pendingState).unsentData
            = pendingState.unsentData
          ∧ (sendEvent false { data := "m" } pendingState).writes
              = pendingState.writes) :=
  match C9_flush_failure_preserves_buffer pendingState rfl with
  | ⟨a, b, c⟩ => ⟨a, b (by decide), c { data := "m" } rfl⟩

/-- JS runtime values as far as `isEventStream` (src/src/index.ts:215-220)
inspects them: `null`, `undefined`, primitive strings, numbers and booleans,
an instance of the `EventStream` class, some other plain object, and a
function value. -/
inductive JSValue where
  | nullVal
  | undefinedVal
  | strVal (s : String)
  | numVal (n : ℚ)
  | boolVal (b : Bool)
  | eventStreamInstance
  | plainObject
  | functionVal
deriving DecidableEq

/-- The JS `typeof` operator on the modelled values (note `typeof null` is
`"object"`). -/
def jsTypeof : JSValue → String
  | .nullVal => "object"
  | .undefinedVal => "undefined"
  | .strVal _ => "string"
  | .numVal _ => "number"
  | .boolVal _ => "boolean"
  | .eventStreamInstance => "object"
  | .plainObject => "object"
  | .functionVal => "function"

/-- The JS `instanceof EventStream` test on the modelled values: true exactly
for an instance of the `EventStream` class. -/
def instanceOfEventStream : JSValue → Bool
  | .eventStreamInstance => true
  | _ => false

/-- Embeds `isEventStream` (src/src/index.ts:215-220): return false when
`typeof input` is not `"object"` or input is `null`; otherwise return
`input instanceof EventStream`. -/
def isEventStream (input : JSValue) : Bool :=
  if jsTypeof input != "object" || input == JSValue.nullVal then false
  else instanceOfEventStream input

/-- C10: `isEventStream` returns true exactly on instances of the
`EventStream` class, and in particular returns false for `null`, `undefined`
and every input whose `typeof` is not `"object"` (it is a total function, so
it never throws). -/
theorem C10_isEventStream_characterization :
    (∀ v : JSValue, isEventStream v = true ↔ v = JSValue.eventStreamInstance)
      ∧ isEventStream JSValue.nullVal = false
      ∧ isEventStream JSValue.undefinedVal = false
      ∧ (∀ v : JSValue, jsTypeof v ≠ "object" → isEventStream v = false) := by
  refine ⟨?_, rfl, rfl, ?_⟩
  · intro v
    cases v <;> simp [isEventStream, jsTypeof, instanceOfEventStream]
  · intro v hv
    cases v <;> simp [isEventStream, jsTypeof, instanceOfEventStream]
    all_goals exact absurd rfl hv

/-- C10 witness: a function value is not an `EventStream`, its non-object
hypothesis discharged at the concrete input. -/
theorem C10_witness : isEventStream JSValue.functionVal = false :=
  C10_isEventStream_characterization.2.2.2 JSValue.functionVal (by decide)

/-- Terminal status of the internal writer, together with the WHATWG Streams
promise semantics of `writer.closed` as used by `onClose`
(src/src/index.ts:199-201, `this._writer.closed.then(cb)`): the `closed`
promise is fulfilled exactly once when the stream closes cleanly, and it is
rejected when the writer terminates abruptly (stream error or abort), in
which case a fulfillment callback registered with `.then` never runs. -/
inductive WriterTermination where
  | stillOpen
  | closedCleanly
  | abruptlyTerminated
deriving DecidableEq

/-- Number of times a callback registered via `onClose` — that is, attached
with `this._writer.closed.then(cb)` and with no rejection handler — is
invoked, as a function of how the writer terminates. -/
def onCloseInvocations : WriterTermination → Nat
  | .closedCleanly => 1
  | _ => 0

/-- C8 (counterexample): the claim that an `onClose` callback runs exactly
once whenever the writer leaves the open state, regardless of whether that
happens by a clean `close()` or by abrupt termination, is false: on abrupt
termination the `closed` promise rejects and the `.then` callback never
runs. -/
theorem C8_counterexample :
    ¬ (∀ t : WriterTermination, t ≠ WriterTermination.stillOpen
        → onCloseInvocations t = 1) := by
  intro hclaim
  have h := hclaim WriterTermination.abruptlyTerminated (by decide)
  simp [onCloseInvocations] at h

/-- C8 (amended): a callback registered via `onClose` is invoked exactly once
when the internal writer transitions to the cleanly closed state (as after a
successful explicit `close()`), and is never invoked while the writer is open
or when the writer terminates abruptly (the `closed` promise rejects). -/
theorem C8_onClose_invocations :
    onCloseInvocations WriterTermination.closedCleanly = 1
      ∧ onCloseInvocations WriterTermination.abruptlyTerminated = 0
      ∧ onCloseInvocations WriterTermination.stillOpen = 0 := by
  exact ⟨rfl, rfl, rfl⟩

end H3SSE
